import Mathlib

/-!
Verification development for the wc-demo session/pairing protocol engine.

Shallow embedding of the core components (Retry Queue, Waku transport,
Session, Initiator/Responder clients) translated from the TypeScript
sources, with theorems settling the frozen specification claims.

Conventions used throughout the embedding:
* TypeScript callbacks and opaque payload values are modelled by numeric
  tags (`Nat`): the model tracks which callback / value is stored, not
  its behaviour.
* Network outcomes (a publish attempt succeeding, a subscription being
  accepted) are inputs to the model: a `Bool` or a list of `Bool`s
  consumed one per network call.
* Errors thrown by the TypeScript code are modelled by `Except` results;
  each error constructor is named after the message of the `Error` the
  source throws.
-/

namespace WcDemo

/-! ## Retry Queue (`src/transport/message-queue.ts`, class `MessageQueue`) -/

/-- A queued message, as in `interface QueuedMessage` of
`message-queue.ts`: `{id, topic, message, timestamp, retries, maxRetries}`.
The generated string id is modelled as a `Nat` tag. -/
structure QueuedMessage where
  id : Nat
  topic : String
  message : String
  timestamp : Nat
  retries : Nat
  maxRetries : Nat
  deriving Repr, DecidableEq

/-- Observable events of the queue-processing loop: a publish attempt for
a message id, a successful send (message removed from the queue), and a
drop after exhausting the retry budget (message removed, failure logged). -/
inductive QEvent where
  | attempt (id : Nat)
  | sent (id : Nat)
  | dropped (id : Nat)
  deriving Repr, DecidableEq

/-- The message id an event refers to. -/
def QEvent.eventId : QEvent → Nat
  | .attempt i => i
  | .sent i => i
  | .dropped i => i

/-- `MessageQueue.enqueue(topic, message, maxRetries)`: pushes a fresh
`QueuedMessage` with `retries = 0` onto the tail of the queue. -/
def enqueue (q : List QueuedMessage) (id : Nat) (topic message : String)
    (timestamp maxRetries : Nat) : List QueuedMessage :=
  q ++ [⟨id, topic, message, timestamp, 0, maxRetries⟩]

/-- `MessageQueue.processQueue()`: repeatedly takes the head of the queue
and calls `transport.publish(topic, message, false)`.  On success the head
is removed (`queue.shift()`); on failure `retries` is incremented and the
head is removed iff `retries >= maxRetries` (dropped), otherwise it stays
at the head and is retried after a backoff delay.

`outs` is the sequence of publish outcomes, one `Bool` per attempt
(`true` = the awaited publish resolved, `false` = it threw).  The run
stops when the queue is empty or the outcome sequence is exhausted (the
latter models a still-running loop); it returns the event trace and the
remaining queue. -/
def processQueue : List Bool → List QueuedMessage → List QEvent × List QueuedMessage
  | _, [] => ([], [])
  | [], q => ([], q)
  | ok :: outs, m :: rest =>
    if ok then
      let r := processQueue outs rest
      (QEvent.attempt m.id :: QEvent.sent m.id :: r.1, r.2)
    else if m.retries + 1 ≥ m.maxRetries then
      let r := processQueue outs rest
      (QEvent.attempt m.id :: QEvent.dropped m.id :: r.1, r.2)
    else
      let r := processQueue outs ({ m with retries := m.retries + 1 } :: rest)
      (QEvent.attempt m.id :: r.1, r.2)

/-- Number of publish attempts recorded for message id `i` in a trace. -/
def attemptsFor (i : Nat) (evs : List QEvent) : Nat :=
  (evs.filter (fun e => e = QEvent.attempt i)).length

/-- The ids of the messages removed from the queue (sent or dropped), in
removal order. -/
def removalIds (evs : List QEvent) : List Nat :=
  evs.filterMap (fun e =>
    match e with
    | .attempt _ => none
    | .sent i => some i
    | .dropped i => some i)

/-! ## Transport (`src/transport/WakuTransport.ts`, class `WakuTransport`)

Callbacks are modelled by `Nat` tags; the `subscriptions` map (a JS `Map`,
insertion-ordered) is an association list `topic ↦ callback`. -/

/-- The `WakuTransport` state observable at the protocol level:
the `connected` flag and the topic→callback subscription table. -/
structure Transport where
  connected : Bool
  subscriptions : List (String × Nat)
  deriving Repr, DecidableEq

/-- Association-list lookup by key (JS `Map.get`). -/
def lookupKey {α : Type} : List (String × α) → String → Option α
  | [], _ => none
  | p :: rest, k => if p.1 = k then some p.2 else lookupKey rest k

/-- JS `Map.set`: overwrite in place if the key is present, else append. -/
def setKey {α : Type} : List (String × α) → String → α → List (String × α)
  | [], k, v => [(k, v)]
  | p :: rest, k, v =>
    if p.1 = k then (k, v) :: rest else p :: setKey rest k v

/-- JS `Map.delete`. -/
def deleteKey {α : Type} (l : List (String × α)) (k : String) :
    List (String × α) :=
  l.filter (fun p => ¬ p.1 = k)

/-- `WakuTransport.subscribe(topic, callback)`.  Throws when not
connected; warns and returns unchanged when the topic is already in the
subscription table; otherwise performs the network subscription (outcome
`netOk`) and on success records `topic ↦ callback`. -/
def Transport.subscribe (t : Transport) (topic : String) (cb : Nat)
    (netOk : Bool) : Transport × Except String Unit :=
  if ¬ t.connected then
    (t, .error "Not connected to Waku network")
  else if (lookupKey t.subscriptions topic).isSome then
    (t, .ok ())
  else if netOk then
    ({ t with subscriptions := t.subscriptions ++ [(topic, cb)] }, .ok ())
  else
    (t, .error "Failed to subscribe to Waku messages")

/-- `WakuTransport.unsubscribe(topic)`: warns and returns when the topic
is unknown, otherwise removes it from the table. -/
def Transport.unsubscribe (t : Transport) (topic : String) : Transport :=
  if (lookupKey t.subscriptions topic).isSome then
    { t with subscriptions := deleteKey t.subscriptions topic }
  else t

/-- `WakuTransport.disconnect()`: clears the network node and the
`connected` flag.  The `subscriptions` table is *not* cleared (only the
network-level filter subscriptions are). -/
def Transport.disconnect (t : Transport) : Transport :=
  if t.connected then { t with connected := false } else t

/-- The resubscription loop inside `WakuTransport.reconnect()`: for each
saved `(topic, callback)` entry, `subscribe(topic, callback)` is retried;
a per-topic failure is caught and logged, and the loop continues. -/
def resubscribeAll (t : Transport) (entries : List (String × Nat))
    (resubOk : String → Bool) : Transport :=
  entries.foldl (fun acc p => (acc.subscribe p.1 p.2 (resubOk p.1)).1) t

/-- `WakuTransport.reconnect()`: disconnects if connected, reconnects
(`connectOk` is the outcome of `connect()`; on failure the error
propagates, modelled by `Except`), then snapshots the subscription
entries, clears the table, and resubscribes each entry with its original
callback, per-topic outcome `resubOk topic`. -/
def Transport.reconnect (t : Transport) (connectOk : Bool)
    (resubOk : String → Bool) : Transport × Except String Unit :=
  let t1 := t.disconnect
  if connectOk then
    let t2 : Transport := { t1 with connected := true }
    let entries := t2.subscriptions
    (resubscribeAll { t2 with subscriptions := [] } entries resubOk, .ok ())
  else
    (t1, .error "ConnectionError")

/-! ## Session (`src/core/Session.ts`, class `Session`) -/

/-- `SessionStatus` enum. -/
inductive SessionStatus where
  | disconnected
  | connecting
  | connected
  | reconnecting
  | expired
  deriving Repr, DecidableEq

/-- The message payload carried inside an envelope.  The source reads
`envelope.payload?.type` to dispatch; a payload with no `type` field is
modelled by `type = none`.  The rest of the payload is an opaque tag. -/
structure Payload where
  type : Option String
  body : Nat
  deriving Repr, DecidableEq

/-- `Envelope`: `{id, sessionId, timestamp, payload}` built by
`Session.send` around every outgoing message. -/
structure Envelope where
  id : String
  sessionId : String
  timestamp : Nat
  payload : Payload
  deriving Repr, DecidableEq

/-- The `Session` state: status, own id and topic, activity metadata, the
inactivity-timer deadline (`none` = timer not armed), the registered
`type ↦ handler` table (handlers as `Nat` tags), the `autoReconnect`
flag, the transport, and the list of envelopes handed to
`transport.publish(topic, ·, useQueue := true)` so far. -/
structure SessionState where
  sessionId : String
  topic : String
  status : SessionStatus
  sessionTimeout : Nat
  autoReconnect : Bool
  createdAt : Nat
  lastActivity : Nat
  timerDeadline : Option Nat
  handlers : List (String × Nat)
  transport : Transport
  published : List Envelope
  deriving Repr, DecidableEq

/-- Result of `Session.handleIncomingMessage` on a parsed envelope:
either the self-echo drop, dispatch to the handler registered for the
payload's type, or a silent drop of an unrecognized type. -/
inductive InAction where
  | selfEcho
  | handled (handler : Nat) (payload : Payload)
  | ignored
  deriving Repr, DecidableEq

/-- `Session.updateActivity()`: refresh `metadata.lastActivity` and
re-arm the inactivity timer. -/
def SessionState.updateActivity (s : SessionState) (now : Nat) : SessionState :=
  { s with lastActivity := now, timerDeadline := some (now + s.sessionTimeout) }

/-- `Session.handleIncomingMessage(rawMessage)` after JSON parsing: an
envelope whose `sessionId` equals the session's own id is dropped with no
state change; otherwise activity is updated and the handler registered
for `envelope.payload?.type` (if any) is invoked with the payload. -/
def SessionState.handleIncomingMessage (s : SessionState) (env : Envelope)
    (now : Nat) : SessionState × InAction :=
  if env.sessionId = s.sessionId then
    (s, .selfEcho)
  else
    let s' := s.updateActivity now
    match env.payload.type.bind (fun ty => lookupKey s.handlers ty) with
    | some h => (s', .handled h env.payload)
    | none => (s', .ignored)

/-- `Session.send(message)`: throws `Session not connected` unless the
status is `CONNECTED`; otherwise wraps the message in a fresh envelope
and publishes it through the transport with `useQueue = true` (append to
`published`), then updates activity. -/
def SessionState.send (s : SessionState) (freshId : String) (msg : Payload)
    (now : Nat) : SessionState × Except String Envelope :=
  if s.status ≠ SessionStatus.connected then
    (s, .error "Session not connected")
  else
    let env : Envelope := ⟨freshId, s.sessionId, now, msg⟩
    (({ s with published := s.published ++ [env] }).updateActivity now, .ok env)

/-- `Session.handleReconnect()`: no-op if already `RECONNECTING`; else
set `RECONNECTING`, call `transport.reconnect()`, and on success set
`CONNECTED`, on failure set `DISCONNECTED` (emitting `reconnect:failed`).
Returns the new state, the emitted status trace, and whether
`transport.reconnect` was called. -/
def SessionState.handleReconnect (s : SessionState) (connectOk : Bool)
    (resubOk : String → Bool) : SessionState × List SessionStatus × Bool :=
  if s.status = SessionStatus.reconnecting then
    (s, [], false)
  else
    match (s.transport.reconnect connectOk resubOk).2 with
    | .ok _ =>
      ({ s with status := SessionStatus.connected,
                transport := (s.transport.reconnect connectOk resubOk).1 },
        [SessionStatus.reconnecting, SessionStatus.connected], true)
    | .error _ =>
      ({ s with status := SessionStatus.disconnected,
                transport := (s.transport.reconnect connectOk resubOk).1 },
        [SessionStatus.reconnecting, SessionStatus.disconnected], true)

/-- The transport `disconnected` event listener installed by
`setupTransportListeners`: triggers `handleReconnect` only when
`autoReconnect` is enabled and the session believes itself connected. -/
def SessionState.onTransportDisconnected (s : SessionState) (connectOk : Bool)
    (resubOk : String → Bool) : SessionState × List SessionStatus × Bool :=
  if s.autoReconnect ∧ s.status = SessionStatus.connected then
    s.handleReconnect connectOk resubOk
  else
    (s, [], false)

/-! ## Initiator role (`src/client/DappClient.ts`, class `DappClient`)

`request()` returns a promise.  The model records each promise's
settlement in an `outcomes` ledger keyed by request id: an entry appears
exactly when the corresponding `resolve`/`reject` runs.  Sent protocol
messages are appended to `outbox`.  `sessionConnected` models whether
`session.send` (hence `sendMessage`) succeeds. -/

/-- Errors surfaced by the Initiator, named after the `Error` messages the
source throws or rejects with: `No active session` (spec:
"no active session" error), `Request timeout` (spec:
`RequestTimeoutError`), `Session deleted` (spec: `SessionDeletedError`),
a response-carried error, and a failed underlying send. -/
inductive DappError where
  | noActiveSession
  | requestTimeout
  | sessionDeleted
  | responseError (message : String)
  | sendFailed
  deriving Repr, DecidableEq

/-- Settlement of a `request()` promise. -/
inductive ROutcome where
  | resolved (result : Nat)
  | rejected (e : DappError)
  deriving Repr, DecidableEq

/-- `SessionData`: the NegotiatedSession held by the Initiator
(`{topic, namespaces, peer, expiry}`); namespaces and peer are opaque
tags. -/
structure SessionData where
  topic : String
  namespaces : Nat
  peer : Nat
  expiry : Nat
  deriving Repr, DecidableEq

/-- A protocol message sent by a client: its `type` string and the id it
references. -/
structure OutMsg where
  type : String
  refId : String
  deriving Repr, DecidableEq

/-- Initiator (`DappClient`) state: the optional NegotiatedSession, the
pending-request table (ids whose timeout is still armed), the promise
ledger, sent messages, the `paired` flag, and whether the underlying
session is connected. -/
structure DappState where
  currentSession : Option SessionData
  pending : List String
  outcomes : List (String × ROutcome)
  outbox : List OutMsg
  paired : Bool
  sessionConnected : Bool
  deriving Repr, DecidableEq

/-- `DappClient.request({chainId, method, params})`: throws
`No active session` (rejecting the returned promise, registering nothing)
when `currentSession` is undefined; otherwise registers a PendingRequest
with a timeout under a fresh id and sends a `session_request`.  If the
send fails, the timeout is cleared, the entry removed and the promise
rejected.  Returns `.ok` when the promise is left pending. -/
def DappState.request (s : DappState) (freshId : String) :
    DappState × Except DappError Unit :=
  match s.currentSession with
  | none => (s, .error DappError.noActiveSession)
  | some _ =>
    if s.sessionConnected then
      ({ s with pending := s.pending ++ [freshId],
                outbox := s.outbox ++ [⟨"session_request", freshId⟩] }, .ok ())
    else
      ({ s with outcomes := s.outcomes ++ [(freshId, .rejected .sendFailed)] },
        .error DappError.sendFailed)

/-- The timeout callback registered by `request()` for id `id`: it can
only fire while the entry is still pending (a consumed entry's timeout
was cleared); it removes the entry and rejects with `Request timeout`. -/
def DappState.fireTimeout (s : DappState) (id : String) : DappState :=
  if id ∈ s.pending then
    { s with pending := s.pending.filter (fun j => ¬ j = id),
             outcomes := s.outcomes ++ [(id, .rejected .requestTimeout)] }
  else s

/-- A `session_response` message: `{id, result, error}`. -/
structure ResponseMsg where
  id : String
  result : Nat
  error : Option String
  deriving Repr, DecidableEq

/-- `DappClient.handleSessionResponse(message)`: if the id matches a
pending request, clear its timeout, remove the entry, and settle the
promise (reject on a carried error, resolve otherwise); unknown ids are
ignored. -/
def DappState.handleSessionResponse (s : DappState) (msg : ResponseMsg) :
    DappState :=
  if msg.id ∈ s.pending then
    { s with pending := s.pending.filter (fun j => ¬ j = msg.id),
             outcomes := s.outcomes ++
               [(msg.id,
                 match msg.error with
                 | some e => .rejected (.responseError e)
                 | none => .resolved msg.result)] }
  else s

/-- `DappClient.handleSessionDelete(message)`: drop the NegotiatedSession
and the paired flag, reject every pending request with `Session deleted`,
and clear the pending table. -/
def DappState.handleSessionDelete (s : DappState) : DappState :=
  { s with currentSession := none,
           paired := false,
           outcomes := s.outcomes ++
             s.pending.map (fun i => (i, ROutcome.rejected .sessionDeleted)),
           pending := [] }

/-! ## Responder role (`src/client/WalletClient.ts`, class `WalletClient`) -/

/-- Errors surfaced by the Responder: `Request not found: <id>` (spec:
`RequestNotFoundError`) and a failed underlying send. -/
inductive WalletError where
  | requestNotFound (id : String)
  | sendFailed
  deriving Repr, DecidableEq

/-- A buffered `session_request` (`interface SessionRequest`):
`{id, topic, params}`, params opaque. -/
structure SessionRequest where
  id : String
  topic : String
  params : Nat
  deriving Repr, DecidableEq

/-- An active session recorded by the Responder on approval:
`{topic, namespaces, createdAt}`. -/
structure ActiveSession where
  topic : String
  namespaces : Nat
  createdAt : Nat
  deriving Repr, DecidableEq

/-- Responder (`WalletClient`) state: its session topic, whether the
session is connected (so `sendMessage` succeeds), the sent messages, the
buffered `session_request`s keyed by id, and the active sessions keyed by
topic.  Note the source keeps *no* pending-proposal table:
`handleSessionProposal` only emits an event. -/
structure WalletState where
  sessionTopic : String
  sessionConnected : Bool
  outbox : List OutMsg
  pendingRequests : List (String × SessionRequest)
  activeSessions : List (String × ActiveSession)
  deriving Repr, DecidableEq

/-- `WalletClient.handleSessionProposal(message)`: emits the
`session_proposal` event and changes no client state. -/
def WalletState.handleSessionProposal (s : WalletState) (_proposalId : String) :
    WalletState :=
  s

/-- `WalletClient.approveSession(proposalId, namespaces)`: sends one
`session_approve` referencing `proposalId` and records an active session
keyed by the Responder's own topic.  No pending-proposal check is made. -/
def WalletState.approveSession (s : WalletState) (proposalId : String)
    (namespaces : Nat) (now : Nat) : WalletState × Except WalletError Unit :=
  if s.sessionConnected then
    ({ s with outbox := s.outbox ++ [⟨"session_approve", proposalId⟩],
              activeSessions :=
                setKey s.activeSessions s.sessionTopic
                  ⟨s.sessionTopic, namespaces, now⟩ }, .ok ())
  else
    (s, .error WalletError.sendFailed)

/-- `WalletClient.handleSessionRequest(message)`: buffers the request in
`pendingRequests` keyed by its id and emits an event. -/
def WalletState.handleSessionRequest (s : WalletState) (req : SessionRequest) :
    WalletState :=
  { s with pendingRequests := setKey s.pendingRequests req.id req }

/-- `WalletClient.respondToRequest(requestId, result)`: throws
`Request not found: <id>` when the id is not buffered; otherwise sends a
`session_response` carrying the result and deletes the buffered entry. -/
def WalletState.respondToRequest (s : WalletState) (requestId : String) :
    WalletState × Except WalletError Unit :=
  match lookupKey s.pendingRequests requestId with
  | none => (s, .error (WalletError.requestNotFound requestId))
  | some _ =>
    if s.sessionConnected then
      ({ s with outbox := s.outbox ++ [⟨"session_response", requestId⟩],
                pendingRequests := deleteKey s.pendingRequests requestId },
        .ok ())
    else
      (s, .error WalletError.sendFailed)

/-- `WalletClient.rejectRequest(requestId, error)`: throws
`Request not found: <id>` when the id is not buffered; otherwise sends a
`session_response` carrying an error object and deletes the entry. -/
def WalletState.rejectRequest (s : WalletState) (requestId : String) :
    WalletState × Except WalletError Unit :=
  match lookupKey s.pendingRequests requestId with
  | none => (s, .error (WalletError.requestNotFound requestId))
  | some _ =>
    if s.sessionConnected then
      ({ s with outbox := s.outbox ++ [⟨"session_response", requestId⟩],
                pendingRequests := deleteKey s.pendingRequests requestId },
        .ok ())
    else
      (s, .error WalletError.sendFailed)

/-! ## Helper lemmas on the association-list operations -/

theorem lookupKey_append_of_none {α : Type} {l : List (String × α)} {k : String}
    (h : lookupKey l k = none) (v : α) :
    lookupKey (l ++ [(k, v)]) k = some v := by
  induction l with
  | nil => simp [lookupKey]
  | cons p rest ih =>
    by_cases hk : p.1 = k
    · simp [lookupKey, hk] at h
    · simp [lookupKey, hk] at h ⊢
      exact ih h

theorem lookupKey_setKey_self {α : Type} (l : List (String × α)) (k : String)
    (v : α) : lookupKey (setKey l k v) k = some v := by
  induction l with
  | nil => simp [setKey, lookupKey]
  | cons p rest ih =>
    by_cases hk : p.1 = k
    · simp [setKey, hk, lookupKey]
    · simp [setKey, hk, lookupKey, ih]

theorem lookupKey_deleteKey_self {α : Type} (l : List (String × α))
    (k : String) : lookupKey (deleteKey l k) k = none := by
  induction l with
  | nil => simp [deleteKey, lookupKey]
  | cons p rest ih =>
    by_cases hk : p.1 = k
    · simpa [deleteKey, hk] using ih
    · simpa [deleteKey, hk, lookupKey] using ih

theorem lookupKey_eq_none_of_not_mem {α : Type} {l : List (String × α)}
    {k : String} (h : k ∉ l.map Prod.fst) : lookupKey l k = none := by
  induction l with
  | nil => simp [lookupKey]
  | cons p rest ih =>
    rw [List.map_cons, List.mem_cons] at h
    push_neg at h
    have h1 : ¬ p.1 = k := fun hq => h.1 hq.symm
    rw [lookupKey, if_neg h1]
    exact ih h.2

/-! ## C5: `request()` with no NegotiatedSession -/

/-- C5.  `DappClient.request` called while `currentSession` is undefined
fails immediately with the `No active session` error and leaves the state
unchanged: no PendingRequest is registered and nothing is sent to the
Transport (the outbox is untouched). -/
theorem request_without_session_fails (s : DappState) (freshId : String)
    (h : s.currentSession = none) :
    s.request freshId = (s, Except.error DappError.noActiveSession) := by
  simp [DappState.request, h]

/-- Witness for C5 at a concrete Initiator state. -/
theorem request_without_session_fails_witness :
    (⟨none, [], [], [], false, true⟩ : DappState).request "r1"
      = (⟨none, [], [], [], false, true⟩, Except.error DappError.noActiveSession) :=
  request_without_session_fails ⟨none, [], [], [], false, true⟩ "r1" rfl

/-! ## C4: `session_delete` rejects and clears all pending requests -/

/-- C4.  On `session_delete`, the Initiator's pending table becomes empty
and every previously pending request's promise is rejected with the
`Session deleted` error (`SessionDeletedError`). -/
theorem sessionDelete_rejects_all_pending (s : DappState) :
    s.handleSessionDelete.pending = [] ∧
    s.handleSessionDelete.pending.length = 0 ∧
    ∀ id ∈ s.pending,
      (id, ROutcome.rejected DappError.sessionDeleted)
        ∈ s.handleSessionDelete.outcomes := by
  refine ⟨rfl, rfl, ?_⟩
  intro id hid
  simp only [DappState.handleSessionDelete]
  exact List.mem_append_right _
    (List.mem_map_of_mem (fun i => (i, ROutcome.rejected DappError.sessionDeleted)) hid)

/-- Witness for C4 on a concrete state with two pending requests. -/
theorem sessionDelete_rejects_all_pending_witness :
    (⟨some ⟨"t", 0, 0, 9⟩, ["a", "b"], [], [], true, true⟩ : DappState).handleSessionDelete.pending = [] ∧
    (⟨some ⟨"t", 0, 0, 9⟩, ["a", "b"], [], [], true, true⟩ : DappState).handleSessionDelete.pending.length = 0 ∧
    ∀ id ∈ (["a", "b"] : List String),
      (id, ROutcome.rejected DappError.sessionDeleted)
        ∈ (⟨some ⟨"t", 0, 0, 9⟩, ["a", "b"], [], [], true, true⟩ : DappState).handleSessionDelete.outcomes :=
  sessionDelete_rejects_all_pending ⟨some ⟨"t", 0, 0, 9⟩, ["a", "b"], [], [], true, true⟩

/-! ## C10: `Session.send` outside the CONNECTED state -/

/-- C10.  For every session whose status is not `CONNECTED`,
`Session.send` throws `Session not connected` and leaves the whole
session state unchanged: nothing is published or enqueued (`published` is
untouched), and the metadata (`lastActivity`) and the inactivity timer
(`timerDeadline`) keep their values. -/
theorem send_not_connected_throws (s : SessionState) (freshId : String)
    (msg : Payload) (now : Nat) (h : s.status ≠ SessionStatus.connected) :
    s.send freshId msg now = (s, Except.error "Session not connected") := by
  simp [SessionState.send, h]

/-- Witness for C10 at a concrete reconnecting session. -/
theorem send_not_connected_throws_witness :
    (⟨"sid", "top", SessionStatus.reconnecting, 300, true, 0, 0, none, [],
        ⟨true, []⟩, []⟩ : SessionState).send "e1" ⟨some "ping", 0⟩ 42
      = (⟨"sid", "top", SessionStatus.reconnecting, 300, true, 0, 0, none, [],
          ⟨true, []⟩, []⟩, Except.error "Session not connected") :=
  send_not_connected_throws
    ⟨"sid", "top", SessionStatus.reconnecting, 300, true, 0, 0, none, [],
      ⟨true, []⟩, []⟩ "e1" ⟨some "ping", 0⟩ 42 (by decide)

/-! ## C6: envelope dispatch and self-echo suppression -/

/-- C6.  A received envelope whose `sessionId` equals the session's own id
is dropped with no handler invocation and no state change (in particular
the activity timer is not reset).  Any other envelope updates
`lastActivity` to the arrival time, re-arms the inactivity timer, and is
dispatched to the handler registered for its payload type when one
exists, while a payload with an unregistered (or missing) type is dropped
silently. -/
theorem handleIncomingMessage_spec (s : SessionState) (env : Envelope)
    (now : Nat) :
    (env.sessionId = s.sessionId →
      s.handleIncomingMessage env now = (s, InAction.selfEcho)) ∧
    (env.sessionId ≠ s.sessionId →
      (s.handleIncomingMessage env now).1.lastActivity = now ∧
      (s.handleIncomingMessage env now).1.timerDeadline
        = some (now + s.sessionTimeout) ∧
      (∀ ty h, env.payload.type = some ty → lookupKey s.handlers ty = some h →
        (s.handleIncomingMessage env now).2 = InAction.handled h env.payload) ∧
      (∀ ty, env.payload.type = some ty → lookupKey s.handlers ty = none →
        (s.handleIncomingMessage env now).2 = InAction.ignored) ∧
      (env.payload.type = none →
        (s.handleIncomingMessage env now).2 = InAction.ignored)) := by
  constructor
  · intro h
    simp [SessionState.handleIncomingMessage, h]
  · intro h
    have h1 : (s.handleIncomingMessage env now).1 = s.updateActivity now := by
      unfold SessionState.handleIncomingMessage
      rw [if_neg h]
      cases env.payload.type.bind (fun ty => lookupKey s.handlers ty) <;> rfl
    refine ⟨by rw [h1]; rfl, by rw [h1]; rfl, ?_, ?_, ?_⟩
    · intro ty hv hty hlk
      simp [SessionState.handleIncomingMessage, h, hty, hlk]
    · intro ty hty hlk
      simp [SessionState.handleIncomingMessage, h, hty, hlk]
    · intro hty
      simp [SessionState.handleIncomingMessage, h, hty]

/-- Witness for C6: concrete self-echo drop and a concrete dispatch. -/
theorem handleIncomingMessage_spec_witness :
    ((⟨"sid", "top", SessionStatus.connected, 300, true, 0, 7, some 307,
        [("ping", 4)], ⟨true, []⟩, []⟩ : SessionState).handleIncomingMessage
        ⟨"e1", "sid", 5, ⟨some "ping", 0⟩⟩ 50
      = (⟨"sid", "top", SessionStatus.connected, 300, true, 0, 7, some 307,
          [("ping", 4)], ⟨true, []⟩, []⟩, InAction.selfEcho)) ∧
    ((⟨"sid", "top", SessionStatus.connected, 300, true, 0, 7, some 307,
        [("ping", 4)], ⟨true, []⟩, []⟩ : SessionState).handleIncomingMessage
        ⟨"e2", "other", 5, ⟨some "ping", 3⟩⟩ 50).2
      = InAction.handled 4 ⟨some "ping", 3⟩ := by
  constructor
  · exact (handleIncomingMessage_spec _ ⟨"e1", "sid", 5, ⟨some "ping", 0⟩⟩ 50).1 rfl
  · exact (((handleIncomingMessage_spec
      ⟨"sid", "top", SessionStatus.connected, 300, true, 0, 7, some 307,
        [("ping", 4)], ⟨true, []⟩, []⟩
      ⟨"e2", "other", 5, ⟨some "ping", 3⟩⟩ 50).2 (by decide)).2.2.1) "ping" 4 rfl
      (by simp [lookupKey])

theorem lookupKey_setKey_ne {α : Type} (l : List (String × α)) {j k : String}
    (v : α) (h : ¬ j = k) : lookupKey (setKey l k v) j = lookupKey l j := by
  have h' : ¬ k = j := fun hq => h hq.symm
  induction l with
  | nil => simp [setKey, lookupKey, h']
  | cons p rest ih =>
    by_cases hk : p.1 = k
    · simp [setKey, hk, lookupKey, h']
    · simp [setKey, hk, lookupKey, ih]

/-! ## C3: request timeout rejects and clears the PendingRequest -/

/-- C3.  A `request()` on an Initiator with an active NegotiatedSession
registers a PendingRequest under the fresh id and leaves its promise
pending.  If no matching `session_response` is seen and the timeout
fires, the promise is rejected with the `Request timeout` error
(`RequestTimeoutError`) and the id is no longer in the pending table.
Moreover a matching `session_response` (resolve or reject) also removes
the entry, so it is gone whatever the outcome. -/
theorem request_timeout_rejects_and_clears (s : DappState) (freshId : String)
    (sess : SessionData) (hs : s.currentSession = some sess)
    (hc : s.sessionConnected = true) :
    (s.request freshId).2 = Except.ok () ∧
    freshId ∈ (s.request freshId).1.pending ∧
    ((freshId, ROutcome.rejected DappError.requestTimeout)
        ∈ ((s.request freshId).1.fireTimeout freshId).outcomes ∧
      freshId ∉ ((s.request freshId).1.fireTimeout freshId).pending) ∧
    (∀ msg : ResponseMsg, msg.id = freshId →
      freshId ∉ ((s.request freshId).1.handleSessionResponse msg).pending) := by
  have hreq : s.request freshId
      = ({ s with pending := s.pending ++ [freshId],
                  outbox := s.outbox ++ [⟨"session_request", freshId⟩] },
          Except.ok ()) := by
    simp [DappState.request, hs, hc]
  rw [hreq]
  have hmem : freshId ∈ s.pending ++ [freshId] := by simp
  refine ⟨rfl, by simp, ⟨?_, ?_⟩, ?_⟩
  · simp [DappState.fireTimeout, hmem]
  · simp [DappState.fireTimeout, hmem, List.mem_filter]
  · intro msg hmsg
    have hm2 : msg.id ∈ s.pending ++ [freshId] := by simp [hmsg]
    simp [DappState.handleSessionResponse, hm2, List.mem_filter, hmsg]

/-- Witness for C3 at a concrete Initiator state. -/
theorem request_timeout_rejects_and_clears_witness :
    ((⟨some ⟨"t", 1, 2, 9⟩, [], [], [], true, true⟩ : DappState).request "r7").2
      = Except.ok () ∧
    "r7" ∈ ((⟨some ⟨"t", 1, 2, 9⟩, [], [], [], true, true⟩ : DappState).request "r7").1.pending ∧
    ((("r7", ROutcome.rejected DappError.requestTimeout)
        ∈ (((⟨some ⟨"t", 1, 2, 9⟩, [], [], [], true, true⟩ : DappState).request "r7").1.fireTimeout "r7").outcomes) ∧
      "r7" ∉ (((⟨some ⟨"t", 1, 2, 9⟩, [], [], [], true, true⟩ : DappState).request "r7").1.fireTimeout "r7").pending) ∧
    (∀ msg : ResponseMsg, msg.id = "r7" →
      "r7" ∉ (((⟨some ⟨"t", 1, 2, 9⟩, [], [], [], true, true⟩ : DappState).request "r7").1.handleSessionResponse msg).pending) :=
  request_timeout_rejects_and_clears
    ⟨some ⟨"t", 1, 2, 9⟩, [], [], [], true, true⟩ "r7" ⟨"t", 1, 2, 9⟩ rfl rfl

/-! ## C9: `subscribe` is idempotent per topic -/

/-- C9.  On a connected transport already subscribed to `topic` (with
callback `cb0`), a further `subscribe` to the same topic returns without
error and leaves the table unchanged, keeping the original callback;
subscribe-then-subscribe yields the same state as the first subscribe,
both from an already-subscribed state and from a fresh one. -/
theorem subscribe_idempotent (t : Transport) (topic : String)
    (cb cb' cb0 : Nat) (netOk : Bool)
    (hconn : t.connected = true)
    (hsub : lookupKey t.subscriptions topic = some cb0) :
    t.subscribe topic cb' netOk = (t, Except.ok ()) ∧
    lookupKey ((t.subscribe topic cb' netOk).1).subscriptions topic = some cb0 ∧
    ((t.subscribe topic cb netOk).1.subscribe topic cb' netOk).1
      = (t.subscribe topic cb netOk).1 ∧
    (∀ u : Transport, u.connected = true →
      lookupKey u.subscriptions topic = none →
      (((u.subscribe topic cb true).1).subscribe topic cb' netOk).1
        = (u.subscribe topic cb true).1) := by
  have h1 : t.subscribe topic cb' netOk = (t, Except.ok ()) := by
    simp [Transport.subscribe, hconn, hsub]
  have h2 : t.subscribe topic cb netOk = (t, Except.ok ()) := by
    simp [Transport.subscribe, hconn, hsub]
  refine ⟨h1, by rw [h1]; exact hsub, by rw [h2, h1], ?_⟩
  intro u hu hn
  have hu1 : u.subscribe topic cb true
      = ({ u with subscriptions := u.subscriptions ++ [(topic, cb)] },
          Except.ok ()) := by
    simp [Transport.subscribe, hu, hn]
  rw [hu1]
  simp [Transport.subscribe, hu, lookupKey_append_of_none hn cb]

/-- Witness for C9 at a concrete transport subscribed to `"t1"`. -/
theorem subscribe_idempotent_witness :
    (⟨true, [("t1", 5)]⟩ : Transport).subscribe "t1" 6 false
      = (⟨true, [("t1", 5)]⟩, Except.ok ()) ∧
    lookupKey (((⟨true, [("t1", 5)]⟩ : Transport).subscribe "t1" 6 false).1).subscriptions "t1"
      = some 5 ∧
    (((⟨true, [("t1", 5)]⟩ : Transport).subscribe "t1" 7 false).1.subscribe "t1" 6 false).1
      = ((⟨true, [("t1", 5)]⟩ : Transport).subscribe "t1" 7 false).1 ∧
    (∀ u : Transport, u.connected = true →
      lookupKey u.subscriptions "t1" = none →
      (((u.subscribe "t1" 7 true).1).subscribe "t1" 6 false).1
        = (u.subscribe "t1" 7 true).1) :=
  subscribe_idempotent ⟨true, [("t1", 5)]⟩ "t1" 7 6 5 false rfl (by simp [lookupKey])

/-! ## C8: each buffered session_request is consumable exactly once -/

/-- C8.  After the Responder buffers a `session_request` with a fresh id,
the first `respondToRequest` (or `rejectRequest`) on that id succeeds,
sends one `session_response`, and removes the id from the buffer; any
later `respondToRequest`/`rejectRequest` on the same id — and any call on
an id that was never buffered — fails with `Request not found`
(`RequestNotFoundError`). -/
theorem session_request_consumed_once (s : WalletState) (req : SessionRequest)
    (hc : s.sessionConnected = true)
    (hid : lookupKey s.pendingRequests req.id = none) :
    lookupKey (s.handleSessionRequest req).pendingRequests req.id = some req ∧
    ((s.handleSessionRequest req).respondToRequest req.id).2 = Except.ok () ∧
    ((s.handleSessionRequest req).respondToRequest req.id).1.outbox
      = (s.handleSessionRequest req).outbox ++ [⟨"session_response", req.id⟩] ∧
    lookupKey (((s.handleSessionRequest req).respondToRequest req.id).1).pendingRequests req.id
      = none ∧
    ((((s.handleSessionRequest req).respondToRequest req.id).1).respondToRequest req.id).2
      = Except.error (WalletError.requestNotFound req.id) ∧
    ((((s.handleSessionRequest req).respondToRequest req.id).1).rejectRequest req.id).2
      = Except.error (WalletError.requestNotFound req.id) ∧
    ((s.handleSessionRequest req).rejectRequest req.id).2 = Except.ok () ∧
    lookupKey (((s.handleSessionRequest req).rejectRequest req.id).1).pendingRequests req.id
      = none ∧
    ((((s.handleSessionRequest req).rejectRequest req.id).1).respondToRequest req.id).2
      = Except.error (WalletError.requestNotFound req.id) ∧
    (∀ j, ¬ j = req.id → lookupKey s.pendingRequests j = none →
      ((s.handleSessionRequest req).respondToRequest j).2
        = Except.error (WalletError.requestNotFound j) ∧
      ((s.handleSessionRequest req).rejectRequest j).2
        = Except.error (WalletError.requestNotFound j)) := by
  have hl1 : lookupKey (s.handleSessionRequest req).pendingRequests req.id
      = some req := lookupKey_setKey_self s.pendingRequests req.id req
  have hcon1 : (s.handleSessionRequest req).sessionConnected = true := hc
  have hresp : (s.handleSessionRequest req).respondToRequest req.id
      = ({ s.handleSessionRequest req with
            outbox := (s.handleSessionRequest req).outbox
              ++ [⟨"session_response", req.id⟩],
            pendingRequests :=
              deleteKey (s.handleSessionRequest req).pendingRequests req.id },
          Except.ok ()) := by
    simp [WalletState.respondToRequest, hl1, hcon1]
  have hrej : (s.handleSessionRequest req).rejectRequest req.id
      = ({ s.handleSessionRequest req with
            outbox := (s.handleSessionRequest req).outbox
              ++ [⟨"session_response", req.id⟩],
            pendingRequests :=
              deleteKey (s.handleSessionRequest req).pendingRequests req.id },
          Except.ok ()) := by
    simp [WalletState.rejectRequest, hl1, hcon1]
  have hdel : lookupKey
      (deleteKey (s.handleSessionRequest req).pendingRequests req.id) req.id
      = none := lookupKey_deleteKey_self _ req.id
  refine ⟨hl1, by rw [hresp], by rw [hresp], by rw [hresp]; exact hdel,
    by rw [hresp]; simp [WalletState.respondToRequest, hdel],
    by rw [hresp]; simp [WalletState.rejectRequest, hdel],
    by rw [hrej], by rw [hrej]; exact hdel,
    by rw [hrej]; simp [WalletState.respondToRequest, hdel], ?_⟩
  intro j hj hjn
  have hlj : lookupKey (s.handleSessionRequest req).pendingRequests j = none :=
    (lookupKey_setKey_ne s.pendingRequests req hj).trans hjn
  exact ⟨by simp [WalletState.respondToRequest, hlj],
    by simp [WalletState.rejectRequest, hlj]⟩

/-- Witness for C8 at a concrete Responder state. -/
theorem session_request_consumed_once_witness :
    lookupKey ((⟨"wt", true, [], [], []⟩ : WalletState).handleSessionRequest
        ⟨"q1", "t", 3⟩).pendingRequests "q1" = some ⟨"q1", "t", 3⟩ ∧
    (((⟨"wt", true, [], [], []⟩ : WalletState).handleSessionRequest
        ⟨"q1", "t", 3⟩).respondToRequest "q1").2 = Except.ok () ∧
    (((⟨"wt", true, [], [], []⟩ : WalletState).handleSessionRequest
        ⟨"q1", "t", 3⟩).respondToRequest "q1").1.outbox
      = ((⟨"wt", true, [], [], []⟩ : WalletState).handleSessionRequest
          ⟨"q1", "t", 3⟩).outbox ++ [⟨"session_response", "q1"⟩] ∧
    lookupKey ((((⟨"wt", true, [], [], []⟩ : WalletState).handleSessionRequest
        ⟨"q1", "t", 3⟩).respondToRequest "q1").1).pendingRequests "q1" = none ∧
    (((((⟨"wt", true, [], [], []⟩ : WalletState).handleSessionRequest
        ⟨"q1", "t", 3⟩).respondToRequest "q1").1).respondToRequest "q1").2
      = Except.error (WalletError.requestNotFound "q1") ∧
    (((((⟨"wt", true, [], [], []⟩ : WalletState).handleSessionRequest
        ⟨"q1", "t", 3⟩).respondToRequest "q1").1).rejectRequest "q1").2
      = Except.error (WalletError.requestNotFound "q1") ∧
    (((⟨"wt", true, [], [], []⟩ : WalletState).handleSessionRequest
        ⟨"q1", "t", 3⟩).rejectRequest "q1").2 = Except.ok () ∧
    lookupKey ((((⟨"wt", true, [], [], []⟩ : WalletState).handleSessionRequest
        ⟨"q1", "t", 3⟩).rejectRequest "q1").1).pendingRequests "q1" = none ∧
    (((((⟨"wt", true, [], [], []⟩ : WalletState).handleSessionRequest
        ⟨"q1", "t", 3⟩).rejectRequest "q1").1).respondToRequest "q1").2
      = Except.error (WalletError.requestNotFound "q1") ∧
    (∀ j, ¬ j = "q1" → lookupKey ([] : List (String × SessionRequest)) j = none →
      (((⟨"wt", true, [], [], []⟩ : WalletState).handleSessionRequest
          ⟨"q1", "t", 3⟩).respondToRequest j).2
        = Except.error (WalletError.requestNotFound j) ∧
      (((⟨"wt", true, [], [], []⟩ : WalletState).handleSessionRequest
          ⟨"q1", "t", 3⟩).rejectRequest j).2
        = Except.error (WalletError.requestNotFound j)) :=
  session_request_consumed_once ⟨"wt", true, [], [], []⟩ ⟨"q1", "t", 3⟩ rfl rfl

/-! ## C2: `approveSession` on the Responder

The claim asserts that approving a received proposal removes it from
pending state so that a *second* `approveSession` with the same id fails.
The source keeps no pending-proposal state at all
(`handleSessionProposal` only emits an event, and `approveSession` never
checks one), so the second call succeeds and sends a duplicate
approval. -/

/-- Counterexample to C2 as stated: Responder receives
`session_proposal` with id `"p1"` and approves it; the second
`approveSession("p1", ...)` call does *not* fail — it returns success and
a second `session_approve` for `"p1"` is sent. -/
theorem approveSession_second_call_succeeds :
    ((((⟨"wtopic", true, [], [], []⟩ : WalletState).handleSessionProposal
        "p1").approveSession "p1" 7 100).2 = Except.ok ()) ∧
    (((((⟨"wtopic", true, [], [], []⟩ : WalletState).handleSessionProposal
        "p1").approveSession "p1" 7 100).1.approveSession "p1" 7 200).2
      = Except.ok ()) ∧
    (((((⟨"wtopic", true, [], [], []⟩ : WalletState).handleSessionProposal
        "p1").approveSession "p1" 7 100).1.approveSession "p1" 7 200).1.outbox
      = [⟨"session_approve", "p1"⟩, ⟨"session_approve", "p1"⟩]) := by
  refine ⟨rfl, rfl, ?_⟩
  simp [WalletState.handleSessionProposal, WalletState.approveSession]

/-- C2 (amended).  With a connected session, each
`approveSession(proposalId, namespaces)` call sends exactly one
`session_approve` envelope referencing `proposalId` and records an active
NegotiatedSession keyed by the Responder's own topic.  Proposals are not
tracked as pending, so a second `approveSession` call with the same id
*succeeds as well*, sending a duplicate `session_approve`. -/
theorem approveSession_spec (s : WalletState) (proposalId : String)
    (ns now : Nat) (hc : s.sessionConnected = true) :
    (s.approveSession proposalId ns now).2 = Except.ok () ∧
    (s.approveSession proposalId ns now).1.outbox
      = s.outbox ++ [⟨"session_approve", proposalId⟩] ∧
    lookupKey ((s.approveSession proposalId ns now).1).activeSessions
        s.sessionTopic = some ⟨s.sessionTopic, ns, now⟩ ∧
    (∀ ns' now',
      (((s.approveSession proposalId ns now).1).approveSession proposalId
          ns' now').2 = Except.ok () ∧
      (((s.approveSession proposalId ns now).1).approveSession proposalId
          ns' now').1.outbox
        = s.outbox ++ [⟨"session_approve", proposalId⟩,
                       ⟨"session_approve", proposalId⟩]) := by
  have h1 : s.approveSession proposalId ns now
      = ({ s with outbox := s.outbox ++ [⟨"session_approve", proposalId⟩],
                  activeSessions := setKey s.activeSessions s.sessionTopic
                    ⟨s.sessionTopic, ns, now⟩ }, Except.ok ()) := by
    simp [WalletState.approveSession, hc]
  rw [h1]
  refine ⟨rfl, rfl, lookupKey_setKey_self _ _ _, ?_⟩
  intro ns' now'
  constructor
  · simp [WalletState.approveSession, hc]
  · simp [WalletState.approveSession, hc]

/-- Witness for the amended C2 at a concrete Responder state. -/
theorem approveSession_spec_witness :
    ((⟨"wt", true, [], [], []⟩ : WalletState).approveSession "p1" 7 100).2
      = Except.ok () ∧
    ((⟨"wt", true, [], [], []⟩ : WalletState).approveSession "p1" 7 100).1.outbox
      = [] ++ [⟨"session_approve", "p1"⟩] ∧
    lookupKey (((⟨"wt", true, [], [], []⟩ : WalletState).approveSession
        "p1" 7 100).1).activeSessions "wt" = some ⟨"wt", 7, 100⟩ ∧
    (∀ ns' now',
      ((((⟨"wt", true, [], [], []⟩ : WalletState).approveSession "p1" 7 100).1).approveSession
          "p1" ns' now').2 = Except.ok () ∧
      ((((⟨"wt", true, [], [], []⟩ : WalletState).approveSession "p1" 7 100).1).approveSession
          "p1" ns' now').1.outbox
        = [] ++ [⟨"session_approve", "p1"⟩, ⟨"session_approve", "p1"⟩]) :=
  approveSession_spec ⟨"wt", true, [], [], []⟩ "p1" 7 100 rfl

/-! ## C7: reconnect resubscribes previous topics; session status cycle -/

theorem lookupKey_filter_of_pred {α : Type} {l : List (String × α)}
    {k : String} {v : α} (p : String → Bool)
    (h : lookupKey l k = some v) (hp : p k = true) :
    lookupKey (l.filter (fun q => p q.1)) k = some v := by
  induction l with
  | nil => simp [lookupKey] at h
  | cons q rest ih =>
    by_cases hk : q.1 = k
    · rw [lookupKey, if_pos hk] at h
      have hq : p q.1 = true := by rw [hk]; exact hp
      simp [List.filter_cons, hq, hp, lookupKey, hk, h]
    · rw [lookupKey, if_neg hk] at h
      by_cases hq : p q.1 = true
      · simp [List.filter_cons, hq, lookupKey, hk, ih h]
      · simp [List.filter_cons, hq, ih h]

theorem subscribe_connected_eq (t : Transport) (topic : String) (cb : Nat)
    (netOk : Bool) : ((t.subscribe topic cb netOk).1).connected = t.connected := by
  by_cases h1 : t.connected
  · by_cases h2 : (lookupKey t.subscriptions topic).isSome
    · simp [Transport.subscribe, h1, h2]
    · by_cases h3 : netOk <;> simp [Transport.subscribe, h1, h2, h3]
  · simp [Transport.subscribe, h1]

theorem resubscribeAll_spec (entries : List (String × Nat))
    (resubOk : String → Bool) :
    ∀ t : Transport, t.connected = true →
    (entries.map Prod.fst).Nodup →
    (∀ p ∈ entries, p.1 ∉ t.subscriptions.map Prod.fst) →
    resubscribeAll t entries resubOk
      = { t with subscriptions :=
            t.subscriptions ++ entries.filter (fun p => resubOk p.1) } := by
  induction entries with
  | nil => intro t ht _ _; simp [resubscribeAll]
  | cons p rest ih =>
    intro t ht hnd hdis
    rw [List.map_cons] at hnd
    have hhead : p.1 ∉ rest.map Prod.fst := (List.nodup_cons.mp hnd).1
    have htail : (rest.map Prod.fst).Nodup := (List.nodup_cons.mp hnd).2
    have hlk : lookupKey t.subscriptions p.1 = none :=
      lookupKey_eq_none_of_not_mem (hdis p (List.mem_cons_self p rest))
    by_cases hre : resubOk p.1
    · have hsub : (t.subscribe p.1 p.2 (resubOk p.1)).1
          = { t with subscriptions := t.subscriptions ++ [(p.1, p.2)] } := by
        simp [Transport.subscribe, ht, hlk, hre]
      have hstep : resubscribeAll t (p :: rest) resubOk
          = resubscribeAll { t with
              subscriptions := t.subscriptions ++ [(p.1, p.2)] } rest resubOk := by
        simp only [resubscribeAll, List.foldl_cons, hsub]
      have hdis2 : ∀ q ∈ rest,
          q.1 ∉ ({ t with subscriptions := t.subscriptions ++ [(p.1, p.2)] } :
            Transport).subscriptions.map Prod.fst := by
        intro q hq
        rw [List.map_append, List.mem_append]
        push_neg
        refine ⟨hdis q (List.mem_cons_of_mem p hq), ?_⟩
        intro hcontra
        simp at hcontra
        exact hhead (by rw [← hcontra]; exact List.mem_map_of_mem Prod.fst hq)
      rw [hstep,
        ih { t with subscriptions := t.subscriptions ++ [(p.1, p.2)] } ht htail hdis2]
      simp [List.filter_cons, hre, List.append_assoc]
    · have hsub : (t.subscribe p.1 p.2 (resubOk p.1)).1 = t := by
        simp [Transport.subscribe, ht, hlk, hre]
      have hstep : resubscribeAll t (p :: rest) resubOk
          = resubscribeAll t rest resubOk := by
        simp only [resubscribeAll, List.foldl_cons, hsub]
      rw [hstep, ih t ht htail (fun q hq => hdis q (List.mem_cons_of_mem p hq))]
      simp [List.filter_cons, hre]

theorem reconnect_true_spec (t : Transport) (resubOk : String → Bool)
    (hnd : (t.subscriptions.map Prod.fst).Nodup) :
    (t.reconnect true resubOk).1.connected = true ∧
    (t.reconnect true resubOk).1.subscriptions
      = t.subscriptions.filter (fun p => resubOk p.1) ∧
    (t.reconnect true resubOk).2 = Except.ok () := by
  have hdisc : t.disconnect.subscriptions = t.subscriptions := by
    by_cases h : t.connected <;> simp [Transport.disconnect, h]
  have hre : t.reconnect true resubOk
      = (resubscribeAll ⟨true, []⟩ t.disconnect.subscriptions resubOk,
          Except.ok ()) := by
    simp [Transport.reconnect]
  have hall := resubscribeAll_spec t.subscriptions resubOk ⟨true, []⟩ rfl hnd
    (by simp)
  rw [hre, hdisc, hall]
  exact ⟨rfl, by simp, rfl⟩

/-- C7.  Transport level: `reconnect()` (with the underlying `connect()`
succeeding) ends connected and resubscribed to exactly the previously
subscribed topics whose individual resubscription succeeded, each with
its original callback — a failing topic does not prevent the others.
Session level: a transport `disconnected` event while the session is
`CONNECTED` with `autoReconnect` enabled drives the status
`CONNECTED → RECONNECTING → CONNECTED` (on success), calling
`Transport.reconnect`, and the session's own topic keeps its original
callback whenever its resubscription succeeds. -/
theorem reconnect_resubscribes_and_status_cycle (s : SessionState)
    (resubOk : String → Bool)
    (hstatus : s.status = SessionStatus.connected)
    (hauto : s.autoReconnect = true)
    (hnd : (s.transport.subscriptions.map Prod.fst).Nodup) :
    (∀ t : Transport, (t.subscriptions.map Prod.fst).Nodup →
      (t.reconnect true resubOk).1.connected = true ∧
      (t.reconnect true resubOk).1.subscriptions
        = t.subscriptions.filter (fun p => resubOk p.1)) ∧
    (s.onTransportDisconnected true resubOk).2.1
      = [SessionStatus.reconnecting, SessionStatus.connected] ∧
    (s.onTransportDisconnected true resubOk).2.2 = true ∧
    (s.onTransportDisconnected true resubOk).1.status
      = SessionStatus.connected ∧
    (s.onTransportDisconnected true resubOk).1.transport.subscriptions
      = s.transport.subscriptions.filter (fun p => resubOk p.1) ∧
    (∀ cb, lookupKey s.transport.subscriptions s.topic = some cb →
      resubOk s.topic = true →
      lookupKey (s.onTransportDisconnected true resubOk).1.transport.subscriptions
          s.topic = some cb) := by
  have hrc := reconnect_true_spec s.transport resubOk hnd
  have hod : s.onTransportDisconnected true resubOk
      = ({ s with
            status := SessionStatus.connected,
            transport := (s.transport.reconnect true resubOk).1 },
          ([SessionStatus.reconnecting, SessionStatus.connected], true)) := by
    simp only [SessionState.onTransportDisconnected, SessionState.handleReconnect,
      hauto, hstatus, hrc.2.2]
    simp
  refine ⟨fun t hndt => ⟨(reconnect_true_spec t resubOk hndt).1,
      (reconnect_true_spec t resubOk hndt).2.1⟩, ?_, ?_, ?_, ?_, ?_⟩
  · rw [hod]
  · rw [hod]
  · rw [hod]
  · rw [hod]; exact hrc.2.1
  · intro cb hcb hok
    rw [hod]
    show lookupKey (s.transport.reconnect true resubOk).1.subscriptions
        s.topic = some cb
    rw [hrc.2.1]
    exact lookupKey_filter_of_pred resubOk hcb hok

/-- Witness for C7 at a concrete connected session with two subscribed
topics, where resubscription of `"x"` fails and the session topic `"top"`
succeeds. -/
theorem reconnect_resubscribes_and_status_cycle_witness :
    ((⟨"sid", "top", SessionStatus.connected, 300, true, 0, 0, none, [],
        ⟨true, [("top", 9), ("x", 3)]⟩, []⟩ : SessionState).onTransportDisconnected
        true (fun t => t != "x")).2.1
      = [SessionStatus.reconnecting, SessionStatus.connected] ∧
    ((⟨"sid", "top", SessionStatus.connected, 300, true, 0, 0, none, [],
        ⟨true, [("top", 9), ("x", 3)]⟩, []⟩ : SessionState).onTransportDisconnected
        true (fun t => t != "x")).2.2 = true ∧
    ((⟨"sid", "top", SessionStatus.connected, 300, true, 0, 0, none, [],
        ⟨true, [("top", 9), ("x", 3)]⟩, []⟩ : SessionState).onTransportDisconnected
        true (fun t => t != "x")).1.status = SessionStatus.connected ∧
    lookupKey ((⟨"sid", "top", SessionStatus.connected, 300, true, 0, 0, none, [],
        ⟨true, [("top", 9), ("x", 3)]⟩, []⟩ : SessionState).onTransportDisconnected
        true (fun t => t != "x")).1.transport.subscriptions "top" = some 9 := by
  refine ⟨?_, ?_, ?_, ?_⟩
  · exact (reconnect_resubscribes_and_status_cycle _ _ rfl rfl (by decide)).2.1
  · exact (reconnect_resubscribes_and_status_cycle _ _ rfl rfl (by decide)).2.2.1
  · exact (reconnect_resubscribes_and_status_cycle _ _ rfl rfl (by decide)).2.2.2.1
  · exact (reconnect_resubscribes_and_status_cycle _ _ rfl rfl
      (by decide)).2.2.2.2.2 9 rfl rfl

/-! ## C1: Retry Queue — attempts bound, FIFO order, head-complete
processing

The claim says the number of publish attempts never exceeds `maxRetries`.
The loop in `processQueue` always performs at least one attempt on the
head message before inspecting the retry budget, so a message enqueued
with `maxRetries = 0` still receives one attempt: the correct bound is
`max 1 maxRetries`. -/

theorem processQueue_eventId_mem (outs : List Bool) :
    ∀ q : List QueuedMessage, ∀ e ∈ (processQueue outs q).1,
      e.eventId ∈ q.map QueuedMessage.id := by
  induction outs with
  | nil =>
    intro q e he
    cases q <;> simp [processQueue] at he
  | cons ok outs ih =>
    intro q e he
    cases q with
    | nil => simp [processQueue] at he
    | cons m rest =>
      by_cases hok : ok = true
      · rw [processQueue, if_pos hok] at he
        simp only [List.mem_cons] at he
        rcases he with rfl | rfl | he
        · simp [QEvent.eventId]
        · simp [QEvent.eventId]
        · exact List.mem_cons_of_mem _ (ih rest e he)
      · by_cases hge : m.retries + 1 ≥ m.maxRetries
        · rw [processQueue, if_neg hok, if_pos hge] at he
          simp only [List.mem_cons] at he
          rcases he with rfl | rfl | he
          · simp [QEvent.eventId]
          · simp [QEvent.eventId]
          · exact List.mem_cons_of_mem _ (ih rest e he)
        · rw [processQueue, if_neg hok, if_neg hge] at he
          simp only [List.mem_cons] at he
          rcases he with rfl | he
          · simp [QEvent.eventId]
          · have := ih ({ m with retries := m.retries + 1 } :: rest) e he
            simpa using this

theorem attemptsFor_cons (i : Nat) (e : QEvent) (evs : List QEvent) :
    attemptsFor i (e :: evs)
      = (if e = QEvent.attempt i then 1 else 0) + attemptsFor i evs := by
  by_cases h : e = QEvent.attempt i <;>
    simp [attemptsFor, List.filter_cons, h, Nat.add_comm]

theorem attemptsFor_eq_zero_of_not_mem (outs : List Bool) {i : Nat}
    {q : List QueuedMessage} (h : i ∉ q.map QueuedMessage.id) :
    attemptsFor i (processQueue outs q).1 = 0 := by
  rw [attemptsFor, List.length_eq_zero, List.filter_eq_nil]
  intro e he
  simp only [decide_eq_true_eq]
  intro hcontra
  have hm := processQueue_eventId_mem outs q e he
  rw [hcontra] at hm
  exact h hm

theorem processQueue_attempts_le (outs : List Bool) :
    ∀ q : List QueuedMessage, (q.map QueuedMessage.id).Nodup →
      ∀ m ∈ q, attemptsFor m.id (processQueue outs q).1
        ≤ max 1 (m.maxRetries - m.retries) := by
  induction outs with
  | nil =>
    intro q _ m _
    cases q <;> simp [processQueue, attemptsFor]
  | cons ok outs ih =>
    intro q hnd m hm
    cases q with
    | nil => simp at hm
    | cons m0 rest =>
      rw [List.map_cons] at hnd
      have hm0 : m0.id ∉ rest.map QueuedMessage.id := (List.nodup_cons.mp hnd).1
      have hnd' : (rest.map QueuedMessage.id).Nodup := (List.nodup_cons.mp hnd).2
      rcases List.mem_cons.mp hm with hmm | hmm
      · -- m is the head message
        subst hmm
        by_cases hok : ok = true
        · rw [processQueue, if_pos hok]
          rw [attemptsFor_cons, attemptsFor_cons,
            attemptsFor_eq_zero_of_not_mem outs hm0]
          simp
        · by_cases hge : m.retries + 1 ≥ m.maxRetries
          · rw [processQueue, if_neg hok, if_pos hge]
            rw [attemptsFor_cons, attemptsFor_cons,
              attemptsFor_eq_zero_of_not_mem outs hm0]
            simp
          · rw [processQueue, if_neg hok, if_neg hge, attemptsFor_cons, if_pos rfl]
            have hih := ih ({ m with retries := m.retries + 1 } :: rest)
              (by simpa using hnd) { m with retries := m.retries + 1 }
              (List.mem_cons_self _ _)
            have hb : max 1 (m.maxRetries - (m.retries + 1))
                = m.maxRetries - (m.retries + 1) :=
              Nat.max_eq_right (by omega)
            have hih' : attemptsFor m.id
                (processQueue outs ({ m with retries := m.retries + 1 } :: rest)).1
                ≤ m.maxRetries - (m.retries + 1) := hb ▸ hih
            have hstep : 1 + attemptsFor m.id
                (processQueue outs ({ m with retries := m.retries + 1 } :: rest)).1
                ≤ m.maxRetries - m.retries := by omega
            exact hstep.trans (Nat.le_max_right 1 (m.maxRetries - m.retries))
      · -- m sits behind the head
        have hne : ¬ m.id = m0.id := by
          intro hcontra
          exact hm0 (hcontra ▸ List.mem_map_of_mem QueuedMessage.id hmm)
        have hne1 : ¬ QEvent.attempt m0.id = QEvent.attempt m.id := by
          simp only [QEvent.attempt.injEq]
          exact fun h => hne h.symm
        have hne2 : ¬ QEvent.sent m0.id = QEvent.attempt m.id := by simp
        have hne3 : ¬ QEvent.dropped m0.id = QEvent.attempt m.id := by simp
        by_cases hok : ok = true
        · rw [processQueue, if_pos hok]
          rw [attemptsFor_cons, attemptsFor_cons, if_neg hne1, if_neg hne2]
          simpa using ih rest hnd' m hmm
        · by_cases hge : m0.retries + 1 ≥ m0.maxRetries
          · rw [processQueue, if_neg hok, if_pos hge]
            rw [attemptsFor_cons, attemptsFor_cons, if_neg hne1, if_neg hne3]
            simpa using ih rest hnd' m hmm
          · rw [processQueue, if_neg hok, if_neg hge]
            rw [attemptsFor_cons, if_neg hne1]
            simpa using ih ({ m0 with retries := m0.retries + 1 } :: rest)
              (by simpa using hnd) m (List.mem_cons_of_mem _ hmm)

theorem processQueue_removals_take (outs : List Bool) :
    ∀ q : List QueuedMessage,
      ∃ k, removalIds (processQueue outs q).1
        = (q.map QueuedMessage.id).take k := by
  induction outs with
  | nil =>
    intro q
    refine ⟨0, ?_⟩
    cases q <;> simp [processQueue, removalIds]
  | cons ok outs ih =>
    intro q
    cases q with
    | nil => exact ⟨0, by simp [processQueue, removalIds]⟩
    | cons m rest =>
      by_cases hok : ok = true
      · obtain ⟨k, hk⟩ := ih rest
        refine ⟨k + 1, ?_⟩
        rw [processQueue, if_pos hok]
        simp only [removalIds, List.filterMap_cons] at hk ⊢
        simp [hk]
      · by_cases hge : m.retries + 1 ≥ m.maxRetries
        · obtain ⟨k, hk⟩ := ih rest
          refine ⟨k + 1, ?_⟩
          rw [processQueue, if_neg hok, if_pos hge]
          simp only [removalIds, List.filterMap_cons] at hk ⊢
          simp [hk]
        · obtain ⟨k, hk⟩ := ih ({ m with retries := m.retries + 1 } :: rest)
          refine ⟨k, ?_⟩
          rw [processQueue, if_neg hok, if_neg hge]
          simp only [removalIds, List.filterMap_cons] at hk ⊢
          simpa using hk

theorem processQueue_head_block (outs : List Bool) :
    ∀ (m : QueuedMessage) (rest : List QueuedMessage),
      ∃ he te, (processQueue outs (m :: rest)).1 = he ++ te ∧
        (∀ e ∈ he, e.eventId = m.id) ∧
        (∀ e ∈ te, e.eventId ∈ rest.map QueuedMessage.id) := by
  induction outs with
  | nil =>
    intro m rest
    exact ⟨[], [], by simp [processQueue], by simp, by simp⟩
  | cons ok outs ih =>
    intro m rest
    by_cases hok : ok = true
    · refine ⟨[QEvent.attempt m.id, QEvent.sent m.id], (processQueue outs rest).1,
        ?_, ?_, ?_⟩
      · rw [processQueue, if_pos hok]; rfl
      · intro e he
        simp only [List.mem_cons, List.not_mem_nil, or_false] at he
        rcases he with rfl | rfl
        · rfl
        · rfl
      · exact fun e he => processQueue_eventId_mem outs rest e he
    · by_cases hge : m.retries + 1 ≥ m.maxRetries
      · refine ⟨[QEvent.attempt m.id, QEvent.dropped m.id],
          (processQueue outs rest).1, ?_, ?_, ?_⟩
        · rw [processQueue, if_neg hok, if_pos hge]; rfl
        · intro e he
          simp only [List.mem_cons, List.not_mem_nil, or_false] at he
          rcases he with rfl | rfl
          · rfl
          · rfl
        · exact fun e he => processQueue_eventId_mem outs rest e he
      · obtain ⟨he, te, h1, h2, h3⟩ := ih { m with retries := m.retries + 1 } rest
        refine ⟨QEvent.attempt m.id :: he, te, ?_, ?_, h3⟩
        · rw [processQueue, if_neg hok, if_neg hge]
          simp [h1]
        · intro e hee
          simp only [List.mem_cons] at hee
          rcases hee with rfl | hee
          · rfl
          · exact h2 e hee

/-- Counterexample to C1 as stated: the message enqueued below carries
`maxRetries = 0`, yet the processing loop performs one publish attempt on
it (the attempt precedes the budget check), exceeding `maxRetries`. -/
theorem messageQueue_attempt_exceeds_maxRetries :
    ((enqueue [] 1 "t" "m" 0 0).map QueuedMessage.maxRetries = [0]) ∧
    attemptsFor 1 (processQueue [false] (enqueue [] 1 "t" "m" 0 0)).1 = 1 := by
  constructor
  · rfl
  · rfl

/-- C1 (amended).  For a queue of messages with distinct ids:
(i) each message receives at most `max 1 (maxRetries - retries)` publish
attempts (at most `max 1 maxRetries` for a freshly enqueued message —
the loop always makes at least one attempt, so `maxRetries` alone is
exceeded when `maxRetries = 0`);
(ii) messages are removed from the queue (sent or dropped) in exactly
FIFO queue order, with no reordering;
(iii) the head message's processing — ending in its removal on success
or on retry exhaustion — completes before any event of a later message
occurs, and all events before that point concern only the head. -/
theorem messageQueue_fifo_and_retry_bound (outs : List Bool)
    (q : List QueuedMessage) (hnd : (q.map QueuedMessage.id).Nodup) :
    (∀ m ∈ q, m.retries = 0 →
      attemptsFor m.id (processQueue outs q).1 ≤ max 1 m.maxRetries) ∧
    (∃ k, removalIds (processQueue outs q).1
        = (q.map QueuedMessage.id).take k) ∧
    (∀ m rest, q = m :: rest →
      ∃ he te, (processQueue outs q).1 = he ++ te ∧
        (∀ e ∈ he, e.eventId = m.id) ∧
        (∀ e ∈ te, e.eventId ∈ rest.map QueuedMessage.id)) := by
  refine ⟨?_, processQueue_removals_take outs q, ?_⟩
  · intro m hm hr
    have := processQueue_attempts_le outs q hnd m hm
    rwa [hr, Nat.sub_zero] at this
  · intro m rest hq
    subst hq
    exact processQueue_head_block outs m rest

/-- Witness for the amended C1 on a concrete two-message queue whose head
fails once and then succeeds. -/
theorem messageQueue_fifo_and_retry_bound_witness :
    (∀ m ∈ [(⟨1, "a", "x", 0, 0, 2⟩ : QueuedMessage), ⟨2, "b", "y", 0, 0, 3⟩],
      m.retries = 0 →
      attemptsFor m.id (processQueue [false, true, true]
          [(⟨1, "a", "x", 0, 0, 2⟩ : QueuedMessage), ⟨2, "b", "y", 0, 0, 3⟩]).1
        ≤ max 1 m.maxRetries) ∧
    (∃ k, removalIds (processQueue [false, true, true]
          [(⟨1, "a", "x", 0, 0, 2⟩ : QueuedMessage), ⟨2, "b", "y", 0, 0, 3⟩]).1
        = ([(⟨1, "a", "x", 0, 0, 2⟩ : QueuedMessage), ⟨2, "b", "y", 0, 0, 3⟩].map
            QueuedMessage.id).take k) ∧
    (∀ m rest,
      [(⟨1, "a", "x", 0, 0, 2⟩ : QueuedMessage), ⟨2, "b", "y", 0, 0, 3⟩]
        = m :: rest →
      ∃ he te, (processQueue [false, true, true]
          [(⟨1, "a", "x", 0, 0, 2⟩ : QueuedMessage), ⟨2, "b", "y", 0, 0, 3⟩]).1
        = he ++ te ∧
        (∀ e ∈ he, e.eventId = m.id) ∧
        (∀ e ∈ te, e.eventId ∈ rest.map QueuedMessage.id)) :=
  messageQueue_fifo_and_retry_bound [false, true, true]
    [⟨1, "a", "x", 0, 0, 2⟩, ⟨2, "b", "y", 0, 0, 3⟩] (by decide)

end WcDemo
